import Mathlib

/-!
Verification of `scripts/generate-favicon-python.py` (favicon generator).

The script is embedded shallowly: pure data is translated directly
(the `sizes` table, the manifest record, the fixed path constants and the
printed strings), and the effectful run of `generate_favicons` is modelled
as a pure function from an environment to an outcome.  The environment
carries the initial filesystem (an association list of paths to file data
plus a list of existing directories) and an error oracle telling, for each
external operation (the Pillow image-decoding/resampling collaborator and
the OS calls), whether that operation raises and with which message.
Images are represented by the expression tree of collaborator calls that
produced them (`opened` for the decoded source, `resize` for a resampling
call), which is exactly the information the script itself determines; the
resampler's pixel mathematics is outside the repository.  The outcome
records the final filesystem, the printed lines in order, and the ordered
log of side effects (directory creation and file writes).
-/

namespace FaviconGen

/-- A fixed (filename, pixel-dimension) pair describing one favicon
variant, mirroring the dictionaries `{'name': ..., 'size': ...}` of the
script. -/
structure SizeSpec where
  name : String
  size : Nat
deriving DecidableEq, Repr

/-- The hardcoded `sizes` list of the script (lines 21-27). -/
def sizes : List SizeSpec :=
  [ { name := "favicon-16x16.png", size := 16 },
    { name := "favicon-32x32.png", size := 32 },
    { name := "apple-touch-icon.png", size := 180 },
    { name := "android-chrome-192x192.png", size := 192 },
    { name := "android-chrome-512x512.png", size := 512 } ]

/-- `logo_path` (line 29): the source image path, relative to the
project root. -/
def logo_path : String := "logo.png"

/-- `public_dir` (line 30): the output directory, relative to the
project root. -/
def public_dir : String := "public"

/-- `os.path.join(public_dir, n)`. -/
def outPath (n : String) : String := public_dir ++ "/" ++ n

/-- Resampling filters of the imaging collaborator; the script always
passes `Image.Resampling.LANCZOS`. -/
inductive Filter
  | nearest
  | bilinear
  | bicubic
  | lanczos
deriving DecidableEq, Repr

/-- An in-memory image, represented by the collaborator calls that
produced it: the decoded source (`Image.open(logo_path)`), or a
`resize((w, h), filter)` applied to another image. -/
inductive ImgExpr
  | opened
  | resize (src : ImgExpr) (w : Nat) (h : Nat) (f : Filter)
deriving DecidableEq, Repr

/-- The pixel dimensions of an image, given the dimensions
`(srcW, srcH)` of the decoded source.  `resize` forces its target
dimensions exactly, regardless of the source aspect ratio. -/
def ImgExpr.dims (srcW srcH : Nat) : ImgExpr → Nat × Nat
  | ImgExpr.opened => (srcW, srcH)
  | ImgExpr.resize _ w h _ => (w, h)

/-- One entry of the manifest's `icons` list. -/
structure Icon where
  src : String
  sizes : String
  type : String
deriving DecidableEq, Repr

/-- The fixed-shape manifest document. -/
structure Manifest where
  name : String
  short_name : String
  icons : List Icon
  theme_color : String
  background_color : String
  display : String
deriving DecidableEq, Repr

/-- The `manifest` dictionary built by the script (lines 70-88). -/
def manifest : Manifest :=
  { name := "Invent Alliance Limited"
    short_name := "Invent Alliance"
    icons :=
      [ { src := "/android-chrome-192x192.png", sizes := "192x192",
          type := "image/png" },
        { src := "/android-chrome-512x512.png", sizes := "512x512",
          type := "image/png" } ]
    theme_color := "#0f172a"
    background_color := "#0f172a"
    display := "standalone" }

/-- The literal `site.webmanifest` JSON structure as the specification
gives it in its section 6, transcribed from the spec text (not from the
code) for the refinement comparison of claim C2. -/
def specManifest : Manifest :=
  { name := "Invent Alliance Limited"
    short_name := "Invent Alliance"
    icons :=
      [ { src := "/android-chrome-192x192.png", sizes := "192x192",
          type := "image/png" },
        { src := "/android-chrome-512x512.png", sizes := "512x512",
          type := "image/png" } ]
    theme_color := "#0f172a"
    background_color := "#0f172a"
    display := "standalone" }

/-- Content of a file on the modelled filesystem: an image saved in a
given container format (`'PNG'` or `'ICO'`), the serialized manifest
document (carried structurally, since the claimwise-relevant content is
the parsed JSON value), or an arbitrary pre-existing blob such as the
source logo. -/
inductive FileData
  | image (img : ImgExpr) (fmt : String)
  | manifestFile (m : Manifest)
  | blob (id : Nat)
deriving DecidableEq, Repr

/-- Lookup in an association list of paths. -/
def getKV : List (String × FileData) → String → Option FileData
  | [], _ => none
  | (q, e) :: rest, p => if q = p then some e else getKV rest p

/-- Overwrite-or-insert in an association list of paths. -/
def setKV : List (String × FileData) → String → FileData → List (String × FileData)
  | [], p, d => [(p, d)]
  | (q, e) :: rest, p, d =>
      if q = p then (p, d) :: rest else (q, e) :: setKV rest p d

/-- The modelled filesystem: files with their contents, and the set of
existing directories. -/
structure FS where
  files : List (String × FileData)
  dirs : List String
deriving DecidableEq, Repr

/-- `os.path.exists(p)`: true when `p` is an existing file or
directory. -/
def FS.existsPath (fs : FS) (p : String) : Bool :=
  (getKV fs.files p).isSome || decide (p ∈ fs.dirs)

/-- Writing a file: overwrite if present, create otherwise. -/
def FS.setFile (fs : FS) (p : String) (d : FileData) : FS :=
  { fs with files := setKV fs.files p d }

/-- `os.makedirs(p, exist_ok=True)` on success: create the directory if
missing, change nothing if it already exists. -/
def FS.mkdir (fs : FS) (p : String) : FS :=
  if p ∈ fs.dirs then fs else { fs with dirs := fs.dirs ++ [p] }

/-- The external operations the script performs, in the script's own
granularity: decoding the logo, each resize and each save of the PNG
loop, the two ICO steps, the manifest write, and the directory
creation. -/
inductive Op
  | openLogo
  | resizePng (size : Nat)
  | savePng (name : String)
  | resizeIco
  | saveIco
  | writeManifest
  | makedirs
deriving DecidableEq, Repr

/-- An environment for one run: the initial filesystem and the error
oracle for the external operations (`none` means the operation succeeds,
`some m` means it raises an exception with message `m`). -/
structure Env where
  fs : FS
  err : Op → Option String

/-- A logged side effect: directory creation or a file write. -/
inductive Eff
  | mkdirE (p : String)
  | writeE (p : String) (d : FileData)
deriving DecidableEq, Repr

/-- Running state: the filesystem, the printed lines in order, and the
ordered side-effect log. -/
structure St where
  fs : FS
  out : List String
  log : List Eff
deriving DecidableEq, Repr

/-- The result of `generate_favicons()`: either a normal return (the
process then exits with status 0), or an exception propagating out of
the function uncaught (the process then terminates abnormally). -/
inductive Outcome
  | normal (st : St)
  | uncaught (st : St) (msg : String)
deriving DecidableEq, Repr

/-- Append a printed line. -/
def St.echo (st : St) (s : String) : St :=
  { st with out := st.out ++ [s] }

/-- Perform and log a file write. -/
def St.write (st : St) (p : String) (d : FileData) : St :=
  { st with fs := st.fs.setFile p d, log := st.log ++ [Eff.writeE p d] }

/-- The four guidance lines printed when the logo is absent
(lines 35-38). -/
def notFoundMsgs : List String :=
  [ "Logo file not found!",
    "Please download the logo from:",
    "https://www.inventallianceco.com/wp-content/uploads/2018/01/invent_mainx1.png",
    "And save it as \"logo.png\" in the project root." ]

/-- The error report line of the `except` handler (line 98). -/
def errorLine (m : String) : String := "Error generating favicons: " ++ m

/-- The dependency-installation hint of the `except` handler (line 99). -/
def pillowHint : String := "\nMake sure Pillow is installed: pip install Pillow"

/-- File data of a PNG favicon: the source resized to an exact
`size x size` square with the LANCZOS filter, saved as `'PNG'`
(lines 56-60). -/
def pngData (item : SizeSpec) : FileData :=
  FileData.image (ImgExpr.resize ImgExpr.opened item.size item.size Filter.lanczos) "PNG"

/-- File data of `favicon.ico`: the source (not a previously resized
copy) resized to 32 x 32 with the LANCZOS filter, saved as `'ICO'`
(lines 64-66). -/
def icoData : FileData :=
  FileData.image (ImgExpr.resize ImgExpr.opened 32 32 Filter.lanczos) "ICO"

/-- File data of `site.webmanifest` (lines 90-92). -/
def manifestData : FileData := FileData.manifestFile manifest

/-- The PNG generation loop (lines 51-61): for each size spec, resize,
save, and print; the first raising operation aborts the loop carrying
the state reached so far. -/
def savePngs (env : Env) : List SizeSpec → St → Except (String × St) St
  | [], st => Except.ok st
  | item :: rest, st =>
      match env.err (Op.resizePng item.size) with
      | some m => Except.error (m, st)
      | none =>
          match env.err (Op.savePng item.name) with
          | some m => Except.error (m, st)
          | none =>
              savePngs env rest
                ((st.write (outPath item.name) (pngData item)).echo
                  ("Generated " ++ item.name))

/-- The body of the `try` block (lines 46-96, without the two final
success prints): decode the logo, the PNG loop, the ICO resize and
save, and the manifest write. -/
def tryBody (env : Env) (st : St) : Except (String × St) St :=
  match env.err Op.openLogo with
  | some m => Except.error (m, st)
  | none =>
      match savePngs env sizes st with
      | Except.error e => Except.error e
      | Except.ok st1 =>
          match env.err Op.resizeIco with
          | some m => Except.error (m, st1)
          | none =>
              match env.err Op.saveIco with
              | some m => Except.error (m, st1)
              | none =>
                  let st2 :=
                    ((st1.write (outPath "favicon.ico") icoData).echo
                      "Generated favicon.ico")
                  match env.err Op.writeManifest with
                  | some m => Except.error (m, st2)
                  | none =>
                      Except.ok
                        ((st2.write (outPath "site.webmanifest") manifestData).echo
                          "Generated site.webmanifest")

/-- The state right after `os.makedirs` succeeded and
`'Generating favicons...'` was printed (lines 42-44). -/
def initSt (env : Env) : St :=
  { fs := env.fs.mkdir public_dir,
    out := ["Generating favicons..."],
    log := [Eff.mkdirE public_dir] }

/-- `generate_favicons()` (lines 32-99).  The existence check comes
first; a missing logo prints the guidance and returns.  `os.makedirs`
runs outside the `try` block, so an exception there propagates uncaught.
Any exception inside the `try` block is caught: the handler prints the
message and the Pillow hint and the function returns normally. -/
def generate_favicons (env : Env) : Outcome :=
  if env.fs.existsPath logo_path then
    match env.err Op.makedirs with
    | some m => Outcome.uncaught { fs := env.fs, out := [], log := [] } m
    | none =>
        match tryBody env (initSt env) with
        | Except.ok st =>
            Outcome.normal
              ((st.echo "\nAll favicons generated successfully!").echo
                "Files are in the public/ directory")
        | Except.error (m, st) =>
            Outcome.normal ((st.echo (errorLine m)).echo pillowHint)
  else
    Outcome.normal { fs := env.fs, out := notFoundMsgs, log := [] }

/-- Exit status of `python scripts/generate-favicon-python.py`:
`__main__` only calls `generate_favicons()`, so a normal return exits
with status 0 and an uncaught exception terminates the process
abnormally (status 1). -/
def process_exit_code (env : Env) : Nat :=
  match generate_favicons env with
  | Outcome.normal _ => 0
  | Outcome.uncaught _ _ => 1

/-- The seven output files of a fully successful run, in write order,
with their contents. -/
def outputs : List (String × FileData) :=
  (sizes.map (fun item => (outPath item.name, pngData item))) ++
    [ (outPath "favicon.ico", icoData),
      (outPath "site.webmanifest", manifestData) ]

/-- Write all seven outputs, in order. -/
def writeAll (fs : FS) : FS :=
  outputs.foldl (fun a pd => a.setFile pd.1 pd.2) fs

/-- Printed lines of a fully successful run, in order. -/
def successOut : List String :=
  [ "Generating favicons...",
    "Generated favicon-16x16.png",
    "Generated favicon-32x32.png",
    "Generated apple-touch-icon.png",
    "Generated android-chrome-192x192.png",
    "Generated android-chrome-512x512.png",
    "Generated favicon.ico",
    "Generated site.webmanifest",
    "\nAll favicons generated successfully!",
    "Files are in the public/ directory" ]

/-- Side-effect log of a fully successful run, in order. -/
def successLog : List Eff :=
  Eff.mkdirE public_dir :: outputs.map (fun pd => Eff.writeE pd.1 pd.2)

theorem getKV_setKV (l : List (String × FileData)) (p q : String) (d : FileData) :
    getKV (setKV l q d) p = if q = p then some d else getKV l p := by
  induction l with
  | nil => simp [getKV, setKV]
  | cons hd tl ih =>
      by_cases h1 : hd.1 = q
      · by_cases h2 : q = p <;> simp [getKV, setKV, h1, h2]
      · by_cases h2 : hd.1 = p
        · have h3 : ¬p = q := fun hh => h1 (h2.trans hh)
          have h4 : ¬q = p := fun hh => h3 hh.symm
          simp [getKV, setKV, h1, h2, h3, h4]
        · simp [getKV, setKV, h1, h2, ih]

theorem setKV_self_of_getKV (l : List (String × FileData)) (p : String)
    (d : FileData) (h : getKV l p = some d) : setKV l p d = l := by
  induction l with
  | nil => simp [getKV] at h
  | cons hd tl ih =>
      by_cases h1 : hd.1 = p
      · simp [getKV, h1] at h
        cases hd
        simp_all [setKV]
      · simp [getKV, h1] at h
        simp [setKV, h1, ih h]

theorem setFile_id (fs : FS) (p : String) (d : FileData)
    (h : getKV fs.files p = some d) : fs.setFile p d = fs := by
  cases fs
  simp [FS.setFile, setKV_self_of_getKV _ _ _ h]

/-- Under a successful environment, `generate_favicons` reaches its
normal form: the seven outputs written over the directory-augmented
initial filesystem, the full print list, and the full effect log. -/
theorem generate_success (env : Env)
    (h1 : env.fs.existsPath logo_path = true)
    (h2 : ∀ op, env.err op = none) :
    generate_favicons env =
      Outcome.normal
        { fs := writeAll (env.fs.mkdir public_dir),
          out := successOut, log := successLog } := by
  simp [generate_favicons, h1, h2, tryBody, savePngs, sizes, initSt,
    St.write, St.echo, writeAll, outputs, successOut, successLog,
    outPath, pngData, icoData, manifestData]

theorem getKV_writeAll_sizes (fs : FS) (item : SizeSpec) (h : item ∈ sizes) :
    getKV (writeAll fs).files (outPath item.name) = some (pngData item) := by
  fin_cases h <;>
    simp [writeAll, outputs, sizes, FS.setFile, getKV_setKV, outPath, public_dir]

theorem getKV_writeAll_ico (fs : FS) :
    getKV (writeAll fs).files (outPath "favicon.ico") = some icoData := by
  simp [writeAll, outputs, sizes, FS.setFile, getKV_setKV, outPath, public_dir]

theorem getKV_writeAll_manifest (fs : FS) :
    getKV (writeAll fs).files (outPath "site.webmanifest") = some manifestData := by
  simp [writeAll, outputs, sizes, FS.setFile, getKV_setKV, outPath, public_dir]

theorem getKV_writeAll_frame (fs : FS) (p : String) (h : ∀ q ∈ outputs, q.1 ≠ p) :
    getKV (writeAll fs).files p = getKV fs.files p := by
  simp [outputs, sizes, outPath, public_dir] at h
  obtain ⟨h1, h2, h3, h4, h5, h6, h7⟩ := h
  simp [writeAll, outputs, sizes, FS.setFile, getKV_setKV, outPath, public_dir,
    h1, h2, h3, h4, h5, h6, h7]

theorem writeAll_dirs (fs : FS) : (writeAll fs).dirs = fs.dirs := by
  simp [writeAll, outputs, sizes, FS.setFile]

theorem mkdir_files (fs : FS) (p : String) : (fs.mkdir p).files = fs.files := by
  by_cases h : p ∈ fs.dirs <;> simp [FS.mkdir, h]

theorem mem_mkdir_dirs (fs : FS) (p : String) : p ∈ (fs.mkdir p).dirs := by
  by_cases h : p ∈ fs.dirs <;> simp [FS.mkdir, h]

theorem mkdir_id (fs : FS) (p : String) (h : p ∈ fs.dirs) : fs.mkdir p = fs := by
  simp [FS.mkdir, h]

theorem mkdir_dirs_sub (fs : FS) (p q : String) (h : q ∈ fs.dirs) :
    q ∈ (fs.mkdir p).dirs := by
  by_cases h1 : p ∈ fs.dirs <;> simp [FS.mkdir, h1, h]

theorem writeAll_id (fs : FS)
    (h : ∀ pd ∈ outputs, getKV fs.files pd.1 = some pd.2) : writeAll fs = fs := by
  simp [outputs, sizes] at h
  obtain ⟨h1, h2, h3, h4, h5, h6, h7⟩ := h
  simp only [writeAll, outputs, sizes, List.map, List.foldl, List.cons_append,
    List.nil_append]
  rw [setFile_id _ _ _ h1, setFile_id _ _ _ h2, setFile_id _ _ _ h3,
    setFile_id _ _ _ h4, setFile_id _ _ _ h5, setFile_id _ _ _ h6,
    setFile_id _ _ _ h7]

theorem writeAll_idem (fs : FS) : writeAll (writeAll fs) = writeAll fs := by
  apply writeAll_id
  intro pd hpd
  fin_cases hpd
  · exact getKV_writeAll_sizes fs { name := "favicon-16x16.png", size := 16 } (by decide)
  · exact getKV_writeAll_sizes fs { name := "favicon-32x32.png", size := 32 } (by decide)
  · exact getKV_writeAll_sizes fs { name := "apple-touch-icon.png", size := 180 } (by decide)
  · exact getKV_writeAll_sizes fs { name := "android-chrome-192x192.png", size := 192 } (by decide)
  · exact getKV_writeAll_sizes fs { name := "android-chrome-512x512.png", size := 512 } (by decide)
  · exact getKV_writeAll_ico fs
  · exact getKV_writeAll_manifest fs

/-- `fs2` still has (some version of) every file `fs1` has: nothing was
deleted going from `fs1` to `fs2`. -/
def keepsFiles (fs1 fs2 : FS) : Prop :=
  ∀ p, (getKV fs1.files p).isSome = true → (getKV fs2.files p).isSome = true

theorem keepsFiles_refl (fs : FS) : keepsFiles fs fs := fun _ h => h

theorem keepsFiles_trans {fs1 fs2 fs3 : FS} (h1 : keepsFiles fs1 fs2)
    (h2 : keepsFiles fs2 fs3) : keepsFiles fs1 fs3 := fun p h => h2 p (h1 p h)

theorem keepsFiles_setFile (fs : FS) (q : String) (d : FileData) :
    keepsFiles fs (fs.setFile q d) := by
  intro p h
  simp only [FS.setFile, getKV_setKV]
  by_cases hq : q = p <;> simp [hq, h]

theorem savePngs_keeps (env : Env) (items : List SizeSpec) (st : St) :
    (∀ st1, savePngs env items st = Except.ok st1 → keepsFiles st.fs st1.fs) ∧
    (∀ m st1, savePngs env items st = Except.error (m, st1) →
      keepsFiles st.fs st1.fs) := by
  induction items generalizing st with
  | nil =>
      constructor
      · intro st1 h
        simp [savePngs] at h
        exact h ▸ keepsFiles_refl st.fs
      · intro m st1 h
        simp [savePngs] at h
  | cons item rest ih =>
      constructor
      · intro st1 h
        simp only [savePngs] at h
        cases hr : env.err (Op.resizePng item.size) with
        | some m => rw [hr] at h; exact absurd h (by simp)
        | none =>
            rw [hr] at h
            cases hs : env.err (Op.savePng item.name) with
            | some m => rw [hs] at h; exact absurd h (by simp)
            | none =>
                rw [hs] at h
                exact keepsFiles_trans
                  (keepsFiles_setFile st.fs (outPath item.name) (pngData item))
                  ((ih _).1 st1 h)
      · intro m st1 h
        simp only [savePngs] at h
        cases hr : env.err (Op.resizePng item.size) with
        | some m1 =>
            rw [hr] at h
            simp at h
            exact h.2 ▸ keepsFiles_refl st.fs
        | none =>
            rw [hr] at h
            cases hs : env.err (Op.savePng item.name) with
            | some m1 =>
                rw [hs] at h
                simp at h
                exact h.2 ▸ keepsFiles_refl st.fs
            | none =>
                rw [hs] at h
                exact keepsFiles_trans
                  (keepsFiles_setFile st.fs (outPath item.name) (pngData item))
                  ((ih _).2 m st1 h)

theorem tryBody_keeps_err (env : Env) (st : St) (m : String) (st1 : St)
    (h : tryBody env st = Except.error (m, st1)) : keepsFiles st.fs st1.fs := by
  simp only [tryBody] at h
  cases ho : env.err Op.openLogo with
  | some m1 =>
      rw [ho] at h
      simp at h
      exact h.2 ▸ keepsFiles_refl st.fs
  | none =>
      rw [ho] at h
      cases hp : savePngs env sizes st with
      | error e =>
          rw [hp] at h
          injection h with h2
          exact (savePngs_keeps env sizes st).2 m st1 (by rw [hp, h2])
      | ok st2 =>
          rw [hp] at h
          have hkeep : keepsFiles st.fs st2.fs := (savePngs_keeps env sizes st).1 st2 hp
          cases hri : env.err Op.resizeIco with
          | some m1 =>
              rw [hri] at h
              simp at h
              exact h.2 ▸ hkeep
          | none =>
              rw [hri] at h
              cases hsi : env.err Op.saveIco with
              | some m1 =>
                  rw [hsi] at h
                  simp at h
                  exact h.2 ▸ hkeep
              | none =>
                  rw [hsi] at h
                  cases hwm : env.err Op.writeManifest with
                  | some m1 =>
                      rw [hwm] at h
                      simp [St.write, St.echo] at h
                      refine h.2 ▸ keepsFiles_trans hkeep ?_
                      exact keepsFiles_setFile st2.fs (outPath "favicon.ico") icoData
                  | none =>
                      rw [hwm] at h
                      simp at h

/-- A concrete filesystem holding only the source logo. -/
def fs0 : FS := { files := [(logo_path, FileData.blob 0)], dirs := [] }

/-- A concrete environment: logo present, every operation succeeds. -/
def env0 : Env := { fs := fs0, err := fun _ => none }

/-- A concrete environment with no logo file. -/
def envNoLogo : Env := { fs := { files := [], dirs := [] }, err := fun _ => none }

/-- A concrete environment where decoding the logo raises. -/
def envOpenFail : Env :=
  { fs := fs0, err := fun op => if op = Op.openLogo then some "boom" else none }

/-- A concrete environment where `os.makedirs` raises. -/
def envMkdirFail : Env :=
  { fs := fs0, err := fun op => if op = Op.makedirs then some "exists" else none }

/-- Claim C1: for every source image (of any dimensions, hence any
aspect ratio) and every successful run, each of the five PNG outputs is
produced by resizing the decoded source to an exact square of its
SizeSpec's declared pixel dimension with the LANCZOS resampling filter,
with no aspect-ratio preservation, so each file's image dimensions equal
size x size exactly. -/
theorem C1_png_resize_exact_square (env : Env) (srcW srcH : Nat)
    (h1 : env.fs.existsPath logo_path = true)
    (h2 : ∀ op, env.err op = none) :
    ∀ item ∈ sizes, ∃ st, generate_favicons env = Outcome.normal st ∧
      getKV st.fs.files (outPath item.name) =
        some (FileData.image
          (ImgExpr.resize ImgExpr.opened item.size item.size Filter.lanczos)
          "PNG") ∧
      ImgExpr.dims srcW srcH
          (ImgExpr.resize ImgExpr.opened item.size item.size Filter.lanczos) =
        (item.size, item.size) := by
  intro item hitem
  refine ⟨_, generate_success env h1 h2, ?_, rfl⟩
  simpa [pngData] using getKV_writeAll_sizes (env.fs.mkdir public_dir) item hitem

theorem C1_witness :
    env0.fs.existsPath logo_path = true ∧
    ({ name := "favicon-16x16.png", size := 16 } : SizeSpec) ∈ sizes ∧
    (∃ st, generate_favicons env0 = Outcome.normal st ∧
      getKV st.fs.files (outPath "favicon-16x16.png") =
        some (FileData.image
          (ImgExpr.resize ImgExpr.opened 16 16 Filter.lanczos) "PNG") ∧
      ImgExpr.dims 100 50 (ImgExpr.resize ImgExpr.opened 16 16 Filter.lanczos) =
        (16, 16)) :=
  ⟨by decide, by decide,
   C1_png_resize_exact_square env0 100 50 (by decide) (fun _ => rfl)
     { name := "favicon-16x16.png", size := 16 } (by decide)⟩

/-- Claim C2: on every successful run, the manifest document written to
`site.webmanifest` deep-equals the literal structure given in the spec:
name, short_name, the two icon entries in order (192 then 512, each with
src, sizes, type image/png), theme_color, background_color, display. -/
theorem C2_manifest_matches_spec (env : Env)
    (h1 : env.fs.existsPath logo_path = true)
    (h2 : ∀ op, env.err op = none) :
    ∃ st, generate_favicons env = Outcome.normal st ∧
      getKV st.fs.files (outPath "site.webmanifest") =
        some (FileData.manifestFile manifest) ∧
      manifest = specManifest := by
  refine ⟨_, generate_success env h1 h2, ?_, rfl⟩
  simpa [manifestData] using getKV_writeAll_manifest (env.fs.mkdir public_dir)

theorem C2_witness :
    env0.fs.existsPath logo_path = true ∧
    (∃ st, generate_favicons env0 = Outcome.normal st ∧
      getKV st.fs.files (outPath "site.webmanifest") =
        some (FileData.manifestFile manifest) ∧
      manifest = specManifest) :=
  ⟨by decide, C2_manifest_matches_spec env0 (by decide) (fun _ => rfl)⟩

/-- Claim C3: when the source image is absent, `generate_favicons`
prints the four "not found" guidance lines and returns cleanly before
any work: no file is written, no directory is created (the state is the
input state, the effect log is empty), and the process exits with
status 0. -/
theorem C3_missing_logo_clean_return (env : Env)
    (h : env.fs.existsPath logo_path = false) :
    generate_favicons env =
      Outcome.normal { fs := env.fs, out := notFoundMsgs, log := [] } ∧
    process_exit_code env = 0 := by
  constructor
  · simp [generate_favicons, h]
  · simp [process_exit_code, generate_favicons, h]

theorem C3_witness :
    envNoLogo.fs.existsPath logo_path = false ∧
    generate_favicons envNoLogo =
      Outcome.normal { fs := envNoLogo.fs, out := notFoundMsgs, log := [] } ∧
    process_exit_code envNoLogo = 0 :=
  ⟨by decide,
   (C3_missing_logo_clean_return envNoLogo (by decide)).1,
   (C3_missing_logo_clean_return envNoLogo (by decide)).2⟩

/-- Claim C4: every exception raised during decode, resize, save or
serialize in the main body (the `try` block) is caught at the outermost
level: whenever `os.makedirs` itself does not raise, `generate_favicons`
returns normally and the process exits with status 0 on every outcome;
and on the caught path the exception message is printed as the error
line together with the dependency-installation hint, on top of the state
reached at the raise (the filesystem is kept). -/
theorem C4_try_block_catches_everything (env : Env)
    (hmk : env.err Op.makedirs = none) :
    (∃ st, generate_favicons env = Outcome.normal st) ∧
    process_exit_code env = 0 ∧
    (∀ m st1, tryBody env (initSt env) = Except.error (m, st1) →
      env.fs.existsPath logo_path = true →
      generate_favicons env =
        Outcome.normal { fs := st1.fs,
                         out := st1.out ++ [errorLine m, pillowHint],
                         log := st1.log }) := by
  cases hex : env.fs.existsPath logo_path with
  | false =>
      refine ⟨⟨{ fs := env.fs, out := notFoundMsgs, log := [] },
          by simp [generate_favicons, hex]⟩,
        by simp [process_exit_code, generate_favicons, hex], ?_⟩
      intro m st1 _ h1
      exact absurd h1 (by simp)
  | true =>
      cases htb : tryBody env (initSt env) with
      | ok st =>
          refine ⟨⟨(st.echo "\nAll favicons generated successfully!").echo
              "Files are in the public/ directory",
            by simp [generate_favicons, hex, hmk, htb]⟩,
            by simp [process_exit_code, generate_favicons, hex, hmk, htb], ?_⟩
          intro m st1 herr _
          exact absurd herr (by simp)
      | error e =>
          obtain ⟨m0, st0⟩ := e
          refine ⟨⟨(st0.echo (errorLine m0)).echo pillowHint,
            by simp [generate_favicons, hex, hmk, htb]⟩,
            by simp [process_exit_code, generate_favicons, hex, hmk, htb], ?_⟩
          intro m st1 herr _
          injection herr with h2
          injection h2 with hm hs
          subst hm
          subst hs
          simp [generate_favicons, hex, hmk, htb, St.echo]

theorem C4_witness :
    envOpenFail.err Op.makedirs = none ∧
    (∃ st, generate_favicons envOpenFail = Outcome.normal st) ∧
    process_exit_code envOpenFail = 0 ∧
    generate_favicons envOpenFail =
      Outcome.normal { fs := (initSt envOpenFail).fs,
                       out := (initSt envOpenFail).out ++ [errorLine "boom", pillowHint],
                       log := (initSt envOpenFail).log } := by
  have h := C4_try_block_catches_everything envOpenFail rfl
  exact ⟨rfl, h.1, h.2.1, h.2.2 "boom" (initSt envOpenFail) rfl (by decide)⟩

/-- Claim C5: a successful run writes exactly the 7 named output files
(the five PNGs, `favicon.ico` and `site.webmanifest`), all inside the
`public/` output directory, and modifies no other filesystem path beyond
creating that directory: every one of the 7 paths is present afterwards,
any other path's file content is unchanged, and the directory list
changes only by the `public` creation. -/
theorem C5_exactly_seven_files (env : Env)
    (h1 : env.fs.existsPath logo_path = true)
    (h2 : ∀ op, env.err op = none) :
    ∃ st, generate_favicons env = Outcome.normal st ∧
      outputs.map Prod.fst =
        [ outPath "favicon-16x16.png", outPath "favicon-32x32.png",
          outPath "apple-touch-icon.png", outPath "android-chrome-192x192.png",
          outPath "android-chrome-512x512.png", outPath "favicon.ico",
          outPath "site.webmanifest" ] ∧
      (∀ pd ∈ outputs, getKV st.fs.files pd.1 = some pd.2) ∧
      (∀ p, (∀ q ∈ outputs, q.1 ≠ p) →
        getKV st.fs.files p = getKV env.fs.files p) ∧
      st.fs.dirs = (env.fs.mkdir public_dir).dirs := by
  refine ⟨_, generate_success env h1 h2, rfl, ?_, ?_, ?_⟩
  · intro pd hpd
    fin_cases hpd
    · exact getKV_writeAll_sizes _ { name := "favicon-16x16.png", size := 16 } (by decide)
    · exact getKV_writeAll_sizes _ { name := "favicon-32x32.png", size := 32 } (by decide)
    · exact getKV_writeAll_sizes _ { name := "apple-touch-icon.png", size := 180 } (by decide)
    · exact getKV_writeAll_sizes _ { name := "android-chrome-192x192.png", size := 192 } (by decide)
    · exact getKV_writeAll_sizes _ { name := "android-chrome-512x512.png", size := 512 } (by decide)
    · exact getKV_writeAll_ico _
    · exact getKV_writeAll_manifest _
  · intro p hp
    rw [getKV_writeAll_frame _ p hp, mkdir_files]
  · exact writeAll_dirs _

theorem C5_witness :
    env0.fs.existsPath logo_path = true ∧
    (∃ st, generate_favicons env0 = Outcome.normal st ∧
      outputs.map Prod.fst =
        [ outPath "favicon-16x16.png", outPath "favicon-32x32.png",
          outPath "apple-touch-icon.png", outPath "android-chrome-192x192.png",
          outPath "android-chrome-512x512.png", outPath "favicon.ico",
          outPath "site.webmanifest" ] ∧
      (∀ pd ∈ outputs, getKV st.fs.files pd.1 = some pd.2) ∧
      (∀ p, (∀ q ∈ outputs, q.1 ≠ p) →
        getKV st.fs.files p = getKV env0.fs.files p) ∧
      st.fs.dirs = (env0.fs.mkdir public_dir).dirs) :=
  ⟨by decide, C5_exactly_seven_files env0 (by decide) (fun _ => rfl)⟩

/-- Claim C6: the side effects of a successful run occur strictly in
this sequential order with no retries: (1) the directory creation,
(2) the five PNG writes in the fixed SizeSpec order 16, 32, 180, 192,
512, (3) the `favicon.ico` write, (4) the `site.webmanifest` write; and
the SizeSpec sequence is the fixed top-level constant whose sizes are
16, 32, 180, 192, 512 (being a plain definition, it is never mutated). -/
theorem C6_effect_order (env : Env)
    (h1 : env.fs.existsPath logo_path = true)
    (h2 : ∀ op, env.err op = none) :
    ∃ st, generate_favicons env = Outcome.normal st ∧
      st.log =
        [ Eff.mkdirE public_dir,
          Eff.writeE (outPath "favicon-16x16.png")
            (pngData { name := "favicon-16x16.png", size := 16 }),
          Eff.writeE (outPath "favicon-32x32.png")
            (pngData { name := "favicon-32x32.png", size := 32 }),
          Eff.writeE (outPath "apple-touch-icon.png")
            (pngData { name := "apple-touch-icon.png", size := 180 }),
          Eff.writeE (outPath "android-chrome-192x192.png")
            (pngData { name := "android-chrome-192x192.png", size := 192 }),
          Eff.writeE (outPath "android-chrome-512x512.png")
            (pngData { name := "android-chrome-512x512.png", size := 512 }),
          Eff.writeE (outPath "favicon.ico") icoData,
          Eff.writeE (outPath "site.webmanifest") manifestData ] ∧
      sizes.map (fun item => item.size) = [16, 32, 180, 192, 512] :=
  ⟨_, generate_success env h1 h2, rfl, rfl⟩

theorem C6_witness :
    env0.fs.existsPath logo_path = true ∧
    (∃ st, generate_favicons env0 = Outcome.normal st ∧
      st.log =
        [ Eff.mkdirE public_dir,
          Eff.writeE (outPath "favicon-16x16.png")
            (pngData { name := "favicon-16x16.png", size := 16 }),
          Eff.writeE (outPath "favicon-32x32.png")
            (pngData { name := "favicon-32x32.png", size := 32 }),
          Eff.writeE (outPath "apple-touch-icon.png")
            (pngData { name := "apple-touch-icon.png", size := 180 }),
          Eff.writeE (outPath "android-chrome-192x192.png")
            (pngData { name := "android-chrome-192x192.png", size := 192 }),
          Eff.writeE (outPath "android-chrome-512x512.png")
            (pngData { name := "android-chrome-512x512.png", size := 512 }),
          Eff.writeE (outPath "favicon.ico") icoData,
          Eff.writeE (outPath "site.webmanifest") manifestData ] ∧
      sizes.map (fun item => item.size) = [16, 32, 180, 192, 512]) :=
  ⟨by decide, C6_effect_order env0 (by decide) (fun _ => rfl)⟩

/-- Claim C7: `favicon.ico` is produced by separately resizing the
original decoded source image (the `resize` is applied to the decoded
source itself, not to a previously resized copy) to 32 x 32 with the
LANCZOS filter and saving it in the ICO container format, so for any
source dimensions it decodes to a 32 x 32 image. -/
theorem C7_ico_from_original (env : Env)
    (h1 : env.fs.existsPath logo_path = true)
    (h2 : ∀ op, env.err op = none) :
    ∃ st, generate_favicons env = Outcome.normal st ∧
      getKV st.fs.files (outPath "favicon.ico") =
        some (FileData.image
          (ImgExpr.resize ImgExpr.opened 32 32 Filter.lanczos) "ICO") ∧
      (∀ srcW srcH, ImgExpr.dims srcW srcH
          (ImgExpr.resize ImgExpr.opened 32 32 Filter.lanczos) = (32, 32)) := by
  refine ⟨_, generate_success env h1 h2, ?_, fun _ _ => rfl⟩
  simpa [icoData] using getKV_writeAll_ico (env.fs.mkdir public_dir)

theorem C7_witness :
    env0.fs.existsPath logo_path = true ∧
    (∃ st, generate_favicons env0 = Outcome.normal st ∧
      getKV st.fs.files (outPath "favicon.ico") =
        some (FileData.image
          (ImgExpr.resize ImgExpr.opened 32 32 Filter.lanczos) "ICO") ∧
      (∀ srcW srcH, ImgExpr.dims srcW srcH
          (ImgExpr.resize ImgExpr.opened 32 32 Filter.lanczos) = (32, 32))) :=
  ⟨by decide, C7_ico_from_original env0 (by decide) (fun _ => rfl)⟩

/-- Claim C8: `generate_favicons` is idempotent and deterministic: for
the same source content, running it a second time on the filesystem the
first run produced succeeds again, writes the same contents (identical
print list and identical write log, hence byte-equivalent outputs,
overwriting the first run's files), leaves the filesystem exactly as
after the first run, and the directory-creation step of the second run
is a no-op because the directory already exists. -/
theorem C8_idempotent_runs (env : Env)
    (h1 : env.fs.existsPath logo_path = true)
    (h2 : ∀ op, env.err op = none) :
    ∃ st1 st2, generate_favicons env = Outcome.normal st1 ∧
      generate_favicons { fs := st1.fs, err := env.err } = Outcome.normal st2 ∧
      st2.fs = st1.fs ∧ st2.out = st1.out ∧ st2.log = st1.log ∧
      st1.fs.mkdir public_dir = st1.fs := by
  have hg1 := generate_success env h1 h2
  have hframe : getKV (writeAll (env.fs.mkdir public_dir)).files logo_path =
      getKV env.fs.files logo_path := by
    rw [getKV_writeAll_frame _ _ (by decide), mkdir_files]
  have hdirs : (writeAll (env.fs.mkdir public_dir)).dirs =
      (env.fs.mkdir public_dir).dirs := writeAll_dirs _
  have hlogo : (writeAll (env.fs.mkdir public_dir)).existsPath logo_path = true := by
    simp only [FS.existsPath, Bool.or_eq_true, decide_eq_true_eq] at h1 ⊢
    rcases h1 with h1 | h1
    · exact Or.inl (hframe ▸ h1)
    · exact Or.inr (hdirs ▸ mkdir_dirs_sub env.fs public_dir logo_path h1)
  have hpub : public_dir ∈ (writeAll (env.fs.mkdir public_dir)).dirs := by
    rw [hdirs]
    exact mem_mkdir_dirs env.fs public_dir
  have hmk1 : (writeAll (env.fs.mkdir public_dir)).mkdir public_dir =
      writeAll (env.fs.mkdir public_dir) := mkdir_id _ _ hpub
  have hg2 := generate_success
    { fs := writeAll (env.fs.mkdir public_dir), err := env.err } hlogo h2
  refine ⟨_, _, hg1, hg2, ?_, rfl, rfl, hmk1⟩
  show writeAll ((writeAll (env.fs.mkdir public_dir)).mkdir public_dir) =
    writeAll (env.fs.mkdir public_dir)
  rw [hmk1, writeAll_idem]

theorem C8_witness :
    env0.fs.existsPath logo_path = true ∧
    (∃ st1 st2, generate_favicons env0 = Outcome.normal st1 ∧
      generate_favicons { fs := st1.fs, err := env0.err } = Outcome.normal st2 ∧
      st2.fs = st1.fs ∧ st2.out = st1.out ∧ st2.log = st1.log ∧
      st1.fs.mkdir public_dir = st1.fs) :=
  ⟨by decide, C8_idempotent_runs env0 (by decide) (fun _ => rfl)⟩

/-- Claim C9: `generate_favicons` never deletes or rolls back any file:
when the `try` body fails partway, the caught-error result keeps the
filesystem exactly as it was at the failing step, so every output file
written before the failure remains on disk with its content unchanged,
and every file present before the run is still present at the failure
state (no partial-output cleanup). -/
theorem C9_no_cleanup_on_failure (env : Env)
    (h1 : env.fs.existsPath logo_path = true)
    (hmk : env.err Op.makedirs = none) :
    ∀ m st1, tryBody env (initSt env) = Except.error (m, st1) →
      ∃ st, generate_favicons env = Outcome.normal st ∧ st.fs = st1.fs ∧
        (∀ p c, getKV st1.fs.files p = some c → getKV st.fs.files p = some c) ∧
        keepsFiles env.fs st1.fs := by
  intro m st1 herr
  refine ⟨(st1.echo (errorLine m)).echo pillowHint, ?_, rfl,
    fun p c hc => hc, ?_⟩
  · simp [generate_favicons, h1, hmk, herr]
  · have hk := tryBody_keeps_err env (initSt env) m st1 herr
    have hfiles : (initSt env).fs.files = env.fs.files :=
      mkdir_files env.fs public_dir
    intro p hp
    exact hk p (by rw [hfiles]; exact hp)

theorem C9_witness :
    envOpenFail.fs.existsPath logo_path = true ∧
    envOpenFail.err Op.makedirs = none ∧
    tryBody envOpenFail (initSt envOpenFail) =
      Except.error ("boom", initSt envOpenFail) ∧
    (∃ st, generate_favicons envOpenFail = Outcome.normal st ∧
      st.fs = (initSt envOpenFail).fs ∧
      (∀ p c, getKV (initSt envOpenFail).fs.files p = some c →
        getKV st.fs.files p = some c) ∧
      keepsFiles envOpenFail.fs (initSt envOpenFail).fs) :=
  ⟨by decide, rfl, rfl,
   C9_no_cleanup_on_failure envOpenFail (by decide) rfl "boom"
     (initSt envOpenFail) rfl⟩

/-- Claim C10: the directory-creation step lies outside the error
boundary: when the logo exists and `os.makedirs` raises, the exception
propagates uncaught out of `generate_favicons` — nothing is printed (in
particular no caught-error message), the filesystem is untouched — and
the process terminates abnormally, unlike exceptions raised inside the
`try` block. -/
theorem C10_makedirs_outside_error_boundary (env : Env) (m : String)
    (h1 : env.fs.existsPath logo_path = true)
    (hmk : env.err Op.makedirs = some m) :
    generate_favicons env =
      Outcome.uncaught { fs := env.fs, out := [], log := [] } m ∧
    process_exit_code env = 1 := by
  constructor
  · simp [generate_favicons, h1, hmk]
  · simp [process_exit_code, generate_favicons, h1, hmk]

theorem C10_witness :
    envMkdirFail.fs.existsPath logo_path = true ∧
    envMkdirFail.err Op.makedirs = some "exists" ∧
    generate_favicons envMkdirFail =
      Outcome.uncaught { fs := envMkdirFail.fs, out := [], log := [] } "exists" ∧
    process_exit_code envMkdirFail = 1 :=
  ⟨by decide, rfl,
   (C10_makedirs_outside_error_boundary envMkdirFail "exists" (by decide) rfl).1,
   (C10_makedirs_outside_error_boundary envMkdirFail "exists" (by decide) rfl).2⟩

end FaviconGen
